import Mathlib

/-!
Verification of the provisioning job orchestrator.

Shallow embedding of:
- app/models/enums.py           (JobStatus, JobType, TenantStatus)
- app/models/provisioning.py    (ProvisioningJob)
- app/services/provisioning.py  (ProvisioningService: create_job, get_job,
                                 retry_job, cancel_job)
- app/workers/provisioning.py   (_process_job)
- app/api/v1/provisioning.py    (get_job / retry_job / cancel_job endpoints)
- app/core/exceptions.py        (NotFoundError, ValidationError)

Machine identifiers (job ids, tenant ids) are modelled as Nat, timestamps as
Nat, database text columns as Option String (NULL = none).  Each db.commit in
the worker is recorded as a snapshot in a commits list; Socket.IO emits are
recorded as a list of events.
-/

namespace ErpMax

/-- JobStatus enum from app/models/enums.py. -/
inductive JobStatus
  | pending
  | running
  | completed
  | failed
deriving DecidableEq, Repr

/-- JobType enum from app/models/enums.py. -/
inductive JobType
  | createSite
  | deleteSite
  | backupSite
deriving DecidableEq, Repr

/-- TenantStatus enum from app/models/enums.py. -/
inductive TenantStatus
  | pending
  | provisioning
  | active
  | suspended
  | cancelled
deriving DecidableEq, Repr

/-- ProvisioningJob row from app/models/provisioning.py.  All nullable columns
are Options; `progress` is the Integer column. -/
structure Job where
  id : Nat
  tenantId : Nat
  jobType : JobType
  status : JobStatus
  progress : Int
  message : Option String
  error : Option String
  startedAt : Option Nat
  completedAt : Option Nat
  createdAt : Nat
deriving DecidableEq, Repr

/-- Tenant row, restricted to the fields the orchestrator reads/writes
(app/models/tenant.py: id, status, erpnext_site_url). -/
structure Tenant where
  id : Nat
  status : TenantStatus
  erpnextSiteUrl : Option String
deriving DecidableEq, Repr

/-- Dispatch message published to RabbitMQ: body is the JSON object
with the single key job_id (app/services/provisioning.py publish_json calls). -/
structure DispatchMessage where
  jobId : Nat
deriving DecidableEq, Repr

/-- Socket.IO events emitted by the worker through app/realtime/emitters.py.
emit_provisioning_completed receives tenant.erpnext_site_url, which is a
nullable column, hence Option String. -/
inductive Event
  | statusUpdate (tenantId : Nat) (status : String) (progress : Int)
      (message : Option String)
  | completed (tenantId : Nat) (erpnextUrl : Option String)
  | failed (tenantId : Nat) (error : String)
deriving DecidableEq, Repr

/-- Service-level exceptions from app/core/exceptions.py:
NotFoundError (carries the resource name) and ValidationError. -/
inductive SvcError
  | notFound (resource : String)
  | validation (msg : String)
deriving DecidableEq, Repr

/-- str(e.message) of a service exception: NotFoundError builds the message
as the resource name followed by " not found" (app/core/exceptions.py). -/
def svcErrorMessage : SvcError → String
  | SvcError.notFound r => r ++ " not found"
  | SvcError.validation m => m

/-- Job record constructed by ProvisioningService.create_job
(app/services/provisioning.py lines 25-31): status PENDING, progress 0,
message "Queued"; error and both timestamps take their column defaults
(NULL); created_at is the server default now(). -/
def created_job (tenantId : Nat) (jobType : JobType) (newId now : Nat) : Job :=
  { id := newId
    tenantId := tenantId
    jobType := jobType
    status := JobStatus.pending
    progress := 0
    message := some "Queued"
    error := none
    startedAt := none
    completedAt := none
    createdAt := now }

/-- ProvisioningService.create_job: insert the new job, then publish a
dispatch message whose body carries the new job's id. -/
def create_job (tenantId : Nat) (jobType : JobType) (newId now : Nat) :
    Job × DispatchMessage :=
  let job := created_job tenantId jobType newId now
  (job, { jobId := job.id })

/-- ProvisioningService.get_job: select by id, raise NotFoundError
("ProvisioningJob") when absent. -/
def get_job (store : List Job) (jobId : Nat) : Except SvcError Job :=
  match store.find? (fun j => j.id == jobId) with
  | some j => Except.ok j
  | none => Except.error (SvcError.notFound "ProvisioningJob")

/-- Commit of a mutated job row back to the store (SQLAlchemy mutates the
loaded row in place; the store replaces the row with the same id). -/
def updateStore (store : List Job) (j : Job) : List Job :=
  store.map (fun x => if x.id == j.id then j else x)

/-- Field resets performed by ProvisioningService.retry_job
(app/services/provisioning.py lines 82-87). -/
def retryReset (job : Job) : Job :=
  { job with
    status := JobStatus.pending
    progress := 0
    message := some "Queued"
    error := none
    startedAt := none
    completedAt := none }

/-- ProvisioningService.retry_job: load the job, raise ValidationError unless
its status is FAILED or COMPLETED, otherwise reset it to a fresh PENDING job
and publish a dispatch message carrying its id. -/
def retry_job (store : List Job) (jobId : Nat) :
    Except SvcError (List Job × Job × DispatchMessage) :=
  match get_job store jobId with
  | Except.error e => Except.error e
  | Except.ok job =>
    if job.status ≠ JobStatus.failed ∧ job.status ≠ JobStatus.completed then
      Except.error (SvcError.validation "Only failed/completed jobs can be retried")
    else
      let job' := retryReset job
      Except.ok (updateStore store job', job', { jobId := job'.id })

/-- Field overwrites performed by ProvisioningService.cancel_job on a
non-terminal job (app/services/provisioning.py lines 105-108). -/
def cancelApply (job : Job) : Job :=
  { job with
    status := JobStatus.failed
    error := some "Cancelled by user"
    message := some "Cancelled"
    progress := 0 }

/-- State transformation of ProvisioningService.cancel_job on the loaded job:
return it unchanged when already COMPLETED or FAILED, otherwise force it to
FAILED via cancelApply. -/
def cancel_job (job : Job) : Job :=
  if job.status = JobStatus.completed ∨ job.status = JobStatus.failed then job
  else cancelApply job

/-- ProvisioningService.cancel_job at store level: load, and either return the
terminal job without touching the store or commit the cancelled row. -/
def cancel_job_svc (store : List Job) (jobId : Nat) :
    Except SvcError (List Job × Job) :=
  match get_job store jobId with
  | Except.error e => Except.error e
  | Except.ok job =>
    if job.status = JobStatus.completed ∨ job.status = JobStatus.failed then
      Except.ok (store, job)
    else
      let job' := cancelApply job
      Except.ok (updateStore store job', job')

/-- Outcome of the worker's unit of work inside the try block of _process_job
(app/workers/provisioning.py lines 52-79).  The placeholder unit of work is
the two awaited sleeps: raiseEarly is an exception at the first await (before
the progress-70 commit, line 53), raiseLate at the second await (after it,
line 62); the detail string is str(e). -/
inductive ExecOutcome
  | success
  | raiseEarly (detail : String)
  | raiseLate (detail : String)
deriving DecidableEq, Repr

/-- RUNNING transition applied to the job row by _process_job lines 37-41:
status RUNNING, started_at = now, progress 10, message "Started", error
cleared. -/
def runningJob (job : Job) (now : Nat) : Job :=
  { job with
    status := JobStatus.running
    startedAt := some now
    progress := 10
    message := some "Started"
    error := none }

/-- Tenant side effect at the RUNNING transition, _process_job lines 43-45:
if the tenant row exists and job_type is CREATE_SITE, set its status to
PROVISIONING. -/
def runningTenant (job : Job) (tenant? : Option Tenant) : Option Tenant :=
  match tenant? with
  | some t =>
    if job.jobType = JobType.createSite then
      some { t with status := TenantStatus.provisioning }
    else some t
  | none => none

/-- Mid-execution checkpoint, _process_job lines 55-56: progress 70,
message "Processing". -/
def processingJob (job : Job) : Job :=
  { job with progress := 70, message := some "Processing" }

/-- COMPLETED transition, _process_job lines 64-67: status COMPLETED,
progress 100, completed_at = now, message "Completed". -/
def completedJob (job : Job) (now : Nat) : Job :=
  { job with
    status := JobStatus.completed
    progress := 100
    completedAt := some now
    message := some "Completed" }

/-- Tenant side effect on completion, _process_job lines 69-70: if the tenant
row exists and job_type is CREATE_SITE, set its status to ACTIVE. -/
def activeTenant (job : Job) (tenant? : Option Tenant) : Option Tenant :=
  match tenant? with
  | some t =>
    if job.jobType = JobType.createSite then
      some { t with status := TenantStatus.active }
    else some t
  | none => none

/-- FAILED transition in the except block, _process_job lines 82-85: status
FAILED, completed_at = now, error = str(e), message "Failed"; all other
fields (in particular progress) keep whatever value the try block left. -/
def failedJob (job : Job) (detail : String) (now : Nat) : Job :=
  { job with
    status := JobStatus.failed
    completedAt := some now
    error := some detail
    message := some "Failed" }

/-- URL carried by the completion event, _process_job lines 76-78:
tenant.erpnext_site_url when the tenant row exists, otherwise the literal
fallback. -/
def completedUrl (tenant? : Option Tenant) : Option String :=
  match tenant? with
  | some t => t.erpnextSiteUrl
  | none => some "https://example.erpnext.com"

/-- Observable result of one run of _process_job: the job snapshots at each
db.commit in order, the final tenant row, and the emitted events in order. -/
structure WorkerResult where
  commits : List Job
  tenant : Option Tenant
  events : List Event
deriving DecidableEq, Repr

/-- Worker _process_job (app/workers/provisioning.py lines 26-90) on one
delivery.  job? is the result of db.get(ProvisioningJob, job_id), tenant? the
result of db.get(Tenant, job.tenant_id); startNow and finishNow are the
wall-clock values of the two datetime.utcnow() calls.  A missing job and the
skip guard (status not in {PENDING, FAILED}) both return without touching
anything.  An exception raised by the unit of work is caught by the except
block and converted to a committed FAILED row, never propagated (the function
is total and always returns a WorkerResult). -/
def process_job (job? : Option Job) (tenant? : Option Tenant)
    (outcome : ExecOutcome) (startNow finishNow : Nat) : WorkerResult :=
  match job? with
  | none => { commits := [], tenant := tenant?, events := [] }
  | some job =>
    if job.status ≠ JobStatus.pending ∧ job.status ≠ JobStatus.failed then
      { commits := [], tenant := tenant?, events := [] }
    else
      let j1 := runningJob job startNow
      let t1 := runningTenant job tenant?
      let startEvent := Event.statusUpdate job.tenantId "running" 10 (some "Started")
      match outcome with
      | ExecOutcome.raiseEarly d =>
        let jf := failedJob j1 d finishNow
        { commits := [j1, jf]
          tenant := t1
          events := [startEvent, Event.failed job.tenantId d] }
      | ExecOutcome.raiseLate d =>
        let j2 := processingJob j1
        let jf := failedJob j2 d finishNow
        { commits := [j1, j2, jf]
          tenant := t1
          events := [startEvent,
            Event.statusUpdate job.tenantId "running" 70 (some "Processing"),
            Event.failed job.tenantId d] }
      | ExecOutcome.success =>
        let j2 := processingJob j1
        let j3 := completedJob j2 finishNow
        let t2 := activeTenant job t1
        { commits := [j1, j2, j3]
          tenant := t2
          events := [startEvent,
            Event.statusUpdate job.tenantId "running" 70 (some "Processing"),
            Event.completed job.tenantId (completedUrl t2)] }

/-- Exceptions that can escape an endpoint handler body in
app/api/v1/provisioning.py: the service's ERPMaxException subclasses, and
fastapi.HTTPException raised by the handler itself (which also subclasses
Exception, so a catch-all except clause catches it too). -/
inductive PyExc
  | erpmax (e : SvcError)
  | httpException (status : Nat) (detail : String)
deriving DecidableEq, Repr

/-- HTTP-level result of an endpoint: a response body or an HTTP error with
status code and detail. -/
inductive ApiResp (α : Type)
  | ok (value : α)
  | err (status : Nat) (detail : String)
deriving DecidableEq, Repr

/-- Body of the get_job endpoint's try block (app/api/v1/provisioning.py
lines 110-120): load the job, raise HTTPException(404, "Job not found") when
it belongs to another tenant, otherwise return it. -/
def get_job_handler_body (store : List Job) (currentTenantId jobId : Nat) :
    Except PyExc Job :=
  match get_job store jobId with
  | Except.error e => Except.error (PyExc.erpmax e)
  | Except.ok job =>
    if job.tenantId ≠ currentTenantId then
      Except.error (PyExc.httpException 404 "Job not found")
    else Except.ok job

/-- get_job endpoint (app/api/v1/provisioning.py lines 104-131): except
NotFoundError gives 404 with str(e.message); every other exception — the
handler's own HTTPException(404) included — falls into except Exception and
is replaced by a 500 "Failed to get provisioning job". -/
def get_job_endpoint (store : List Job) (currentTenantId jobId : Nat) :
    ApiResp Job :=
  match get_job_handler_body store currentTenantId jobId with
  | Except.ok job => ApiResp.ok job
  | Except.error (PyExc.erpmax (SvcError.notFound r)) =>
    ApiResp.err 404 (svcErrorMessage (SvcError.notFound r))
  | Except.error _ => ApiResp.err 500 "Failed to get provisioning job"

/-- Body of the retry_job endpoint's try block (lines 147-158): load the job,
raise HTTPException(404, "Job not found") on a tenant mismatch, then call
ProvisioningService.retry_job. -/
def retry_job_handler_body (store : List Job) (currentTenantId jobId : Nat) :
    Except PyExc (List Job × Job) :=
  match get_job store jobId with
  | Except.error e => Except.error (PyExc.erpmax e)
  | Except.ok job =>
    if job.tenantId ≠ currentTenantId then
      Except.error (PyExc.httpException 404 "Job not found")
    else
      match retry_job store jobId with
      | Except.error e => Except.error (PyExc.erpmax e)
      | Except.ok (store', job', _) => Except.ok (store', job')

/-- retry_job endpoint (lines 141-169): except (NotFoundError,
ValidationError) gives 400 with str(e.message); every other exception — the
handler's own HTTPException(404) included — falls into except Exception and
is replaced by a 500.  On an error the store is left as it was. -/
def retry_job_endpoint (store : List Job) (currentTenantId jobId : Nat) :
    ApiResp Job × List Job :=
  match retry_job_handler_body store currentTenantId jobId with
  | Except.ok (store', job') => (ApiResp.ok job', store')
  | Except.error (PyExc.erpmax e) => (ApiResp.err 400 (svcErrorMessage e), store)
  | Except.error _ => (ApiResp.err 500 "Failed to retry provisioning job", store)

/-- Body of the cancel_job endpoint's try block (lines 185-196). -/
def cancel_job_handler_body (store : List Job) (currentTenantId jobId : Nat) :
    Except PyExc (List Job × Job) :=
  match get_job store jobId with
  | Except.error e => Except.error (PyExc.erpmax e)
  | Except.ok job =>
    if job.tenantId ≠ currentTenantId then
      Except.error (PyExc.httpException 404 "Job not found")
    else
      match cancel_job_svc store jobId with
      | Except.error e => Except.error (PyExc.erpmax e)
      | Except.ok (store', job') => Except.ok (store', job')

/-- cancel_job endpoint (lines 179-207), with the same except structure as
retry_job. -/
def cancel_job_endpoint (store : List Job) (currentTenantId jobId : Nat) :
    ApiResp Job × List Job :=
  match cancel_job_handler_body store currentTenantId jobId with
  | Except.ok (store', job') => (ApiResp.ok job', store')
  | Except.error (PyExc.erpmax e) => (ApiResp.err 400 (svcErrorMessage e), store)
  | Except.error _ => (ApiResp.err 500 "Failed to cancel provisioning job", store)

/-- Job states reachable through the orchestrator's own operations: creation,
retry of a terminal job, cancel, and every worker db.commit snapshot. -/
inductive Reachable : Job → Prop
  | created (tenantId : Nat) (jobType : JobType) (newId now : Nat) :
      Reachable (created_job tenantId jobType newId now)
  | retried (j : Job) (h : Reachable j)
      (hs : j.status = JobStatus.failed ∨ j.status = JobStatus.completed) :
      Reachable (retryReset j)
  | cancelled (j : Job) (h : Reachable j) : Reachable (cancel_job j)
  | workerCommit (j j' : Job) (tenant? : Option Tenant) (outcome : ExecOutcome)
      (startNow finishNow : Nat) (h : Reachable j)
      (hmem : j' ∈ (process_job (some j) tenant? outcome startNow finishNow).commits) :
      Reachable j'

/-- Sample FAILED job used to exercise the worker's skip guard. -/
def c1_failed_job : Job :=
  { id := 7
    tenantId := 3
    jobType := JobType.backupSite
    status := JobStatus.failed
    progress := 40
    message := some "Failed"
    error := some "boom"
    startedAt := some 1
    completedAt := some 2
    createdAt := 0 }

/-- Sample RUNNING job. -/
def w1_running_job : Job :=
  { c1_failed_job with id := 8, status := JobStatus.running, error := none }

/-- Sample PENDING job. -/
def w2_pending_job : Job :=
  created_job 5 JobType.createSite 9 0

/-- Sample FAILED job and single-row store for the retry witness. -/
def w3_job : Job :=
  { id := 2
    tenantId := 9
    jobType := JobType.deleteSite
    status := JobStatus.failed
    progress := 40
    message := some "Failed"
    error := some "disk full"
    startedAt := some 1
    completedAt := some 2
    createdAt := 0 }

/-- Store holding only w3_job. -/
def w3_store : List Job := [w3_job]

/-- Sample tenant row. -/
def w6_tenant : Tenant :=
  { id := 5, status := TenantStatus.pending, erpnextSiteUrl := some "https://t5.example.com" }

/-- Job reached by a worker failure whose exception detail str(e) is the
empty string, starting from a freshly created job. -/
def c5_empty_error_job : Job :=
  failedJob (runningJob (created_job 4 JobType.createSite 11 0) 1) "" 2

/-- Store whose only job belongs to tenant 1, used to probe the endpoints
with a caller whose current tenant is 2. -/
def c9_store : List Job := [created_job 1 JobType.createSite 1 0]

/-- Helper invariant: every reachable PENDING job has both timestamps unset.
Creation and retry clear them, and no other operation ever produces a
PENDING row. -/
theorem reachable_pending_timestamps_none (j : Job) (h : Reachable j) :
    j.status = JobStatus.pending → j.startedAt = none ∧ j.completedAt = none := by
  induction h with
  | created tid ty nid now => intro _; exact ⟨rfl, rfl⟩
  | retried j hj hs ih => intro _; exact ⟨rfl, rfl⟩
  | cancelled j hj ih =>
    intro hp
    rcases hs : j.status <;> simp [cancel_job, cancelApply, hs] at hp ⊢
  | workerCommit j j' tenant? oc t1 t2 hj hmem ih =>
    intro hp
    by_cases hg : j.status ≠ JobStatus.pending ∧ j.status ≠ JobStatus.failed
    · simp [process_job, hg] at hmem
    · have hacc : j.status = JobStatus.pending ∨ j.status = JobStatus.failed := by
        by_cases h1 : j.status = JobStatus.pending
        · exact Or.inl h1
        · exact Or.inr (by
            by_cases h2 : j.status = JobStatus.failed
            · exact h2
            · exact absurd ⟨h1, h2⟩ hg)
      rcases hacc with h | h <;> cases oc <;>
        simp [process_job, h, runningJob, processingJob, completedJob, failedJob] at hmem <;>
        rcases hmem with rfl | rfl | rfl <;>
        simp [runningJob, processingJob, completedJob, failedJob] at hp

/-- C3: RetryJob raises ValidationError exactly when the job's status is
outside {FAILED, COMPLETED}, leaving the store untouched; otherwise it
resets the job to a fresh PENDING record and re-publishes a dispatch message
carrying the job's id. -/
theorem retry_job_spec (store : List Job) (jobId : Nat) (job : Job)
    (hget : get_job store jobId = Except.ok job) :
    (¬ (job.status = JobStatus.failed ∨ job.status = JobStatus.completed) →
      retry_job store jobId =
        Except.error (SvcError.validation "Only failed/completed jobs can be retried")) ∧
    ((job.status = JobStatus.failed ∨ job.status = JobStatus.completed) →
      retry_job store jobId =
        Except.ok (updateStore store (retryReset job), retryReset job,
          ({ jobId := job.id } : DispatchMessage))) ∧
    (retryReset job).status = JobStatus.pending ∧
    (retryReset job).progress = 0 ∧
    (retryReset job).message = some "Queued" ∧
    (retryReset job).error = none ∧
    (retryReset job).startedAt = none ∧
    (retryReset job).completedAt = none ∧
    (retryReset job).id = job.id := by
  refine ⟨?_, ?_, rfl, rfl, rfl, rfl, rfl, rfl, rfl⟩
  · intro hn
    have h1 : job.status ≠ JobStatus.failed := fun h => hn (Or.inl h)
    have h2 : job.status ≠ JobStatus.completed := fun h => hn (Or.inr h)
    simp [retry_job, hget, h1, h2]
  · intro hy
    have hcond : ¬ (job.status ≠ JobStatus.failed ∧ job.status ≠ JobStatus.completed) := by
      rcases hy with h | h <;> simp [h]
    simp [retry_job, hget, hcond, retryReset]

/-- Witness for retry_job_spec at a concrete FAILED job. -/
theorem retry_job_spec_witness :
    retry_job w3_store 2 =
      Except.ok (updateStore w3_store (retryReset w3_job), retryReset w3_job,
        ({ jobId := w3_job.id } : DispatchMessage)) ∧
    (retryReset w3_job).status = JobStatus.pending := by
  have h := retry_job_spec w3_store 2 w3_job rfl
  exact ⟨h.2.1 (Or.inl rfl), h.2.2.1⟩

/-- C4: CancelJob is idempotent — a COMPLETED or FAILED job is returned
unchanged, a PENDING or RUNNING job is force-failed with error
"Cancelled by user", message "Cancelled" and progress 0, and a second cancel
leaves the result as it is. -/
theorem cancel_job_idempotent_spec (j : Job) :
    ((j.status = JobStatus.completed ∨ j.status = JobStatus.failed) →
      cancel_job j = j) ∧
    ((j.status = JobStatus.pending ∨ j.status = JobStatus.running) →
      cancel_job j = cancelApply j ∧
      (cancel_job j).status = JobStatus.failed ∧
      (cancel_job j).error = some "Cancelled by user" ∧
      (cancel_job j).message = some "Cancelled" ∧
      (cancel_job j).progress = 0) ∧
    cancel_job (cancel_job j) = cancel_job j := by
  rcases hs : j.status <;> simp [cancel_job, cancelApply, hs]

/-- Witness for cancel_job_idempotent_spec at a concrete RUNNING job. -/
theorem cancel_job_idempotent_spec_witness :
    cancel_job w1_running_job = cancelApply w1_running_job ∧
    cancel_job (cancel_job w1_running_job) = cancel_job w1_running_job := by
  have h := cancel_job_idempotent_spec w1_running_job
  exact ⟨(h.2.1 (Or.inr rfl)).1, h.2.2⟩

/-- C8: CreateJob builds a PENDING job with progress 0, message "Queued", no
error and no timestamps for the requested tenant and job type, and publishes
a dispatch message whose body is exactly the new job's id. -/
theorem create_job_spec (tenantId : Nat) (jobType : JobType) (newId now : Nat) :
    (create_job tenantId jobType newId now).1 = created_job tenantId jobType newId now ∧
    (create_job tenantId jobType newId now).1.status = JobStatus.pending ∧
    (create_job tenantId jobType newId now).1.progress = 0 ∧
    (create_job tenantId jobType newId now).1.message = some "Queued" ∧
    (create_job tenantId jobType newId now).1.error = none ∧
    (create_job tenantId jobType newId now).1.startedAt = none ∧
    (create_job tenantId jobType newId now).1.completedAt = none ∧
    (create_job tenantId jobType newId now).1.tenantId = tenantId ∧
    (create_job tenantId jobType newId now).1.jobType = jobType ∧
    (create_job tenantId jobType newId now).1.id = newId ∧
    (create_job tenantId jobType newId now).2.jobId =
      (create_job tenantId jobType newId now).1.id :=
  ⟨rfl, rfl, rfl, rfl, rfl, rfl, rfl, rfl, rfl, rfl, rfl⟩

/-- C10: CancelJob on a PENDING or RUNNING job rewrites only status, error,
message and progress; id, tenant_id, job_type, both timestamps and created_at
are untouched, and in particular a reachable job cancelled while PENDING ends
FAILED with no started_at and no completed_at. -/
theorem cancel_job_frame_spec (j : Job)
    (h : j.status = JobStatus.pending ∨ j.status = JobStatus.running) :
    (cancel_job j).id = j.id ∧
    (cancel_job j).tenantId = j.tenantId ∧
    (cancel_job j).jobType = j.jobType ∧
    (cancel_job j).startedAt = j.startedAt ∧
    (cancel_job j).completedAt = j.completedAt ∧
    (cancel_job j).createdAt = j.createdAt ∧
    (cancel_job j).status = JobStatus.failed ∧
    (cancel_job j).error = some "Cancelled by user" ∧
    (cancel_job j).message = some "Cancelled" ∧
    (cancel_job j).progress = 0 ∧
    (Reachable j → j.status = JobStatus.pending →
      (cancel_job j).startedAt = none ∧ (cancel_job j).completedAt = none) := by
  have hcancel : cancel_job j = cancelApply j := by
    rcases h with hs | hs <;> simp [cancel_job, hs]
  rw [hcancel]
  refine ⟨rfl, rfl, rfl, rfl, rfl, rfl, rfl, rfl, rfl, rfl, ?_⟩
  intro hr hp
  exact reachable_pending_timestamps_none j hr hp

/-- Witness for cancel_job_frame_spec at a freshly created (hence reachable)
PENDING job. -/
theorem cancel_job_frame_spec_witness :
    (cancel_job (created_job 1 JobType.createSite 5 0)).status = JobStatus.failed ∧
    (cancel_job (created_job 1 JobType.createSite 5 0)).startedAt = none ∧
    (cancel_job (created_job 1 JobType.createSite 5 0)).completedAt = none := by
  have h := cancel_job_frame_spec (created_job 1 JobType.createSite 5 0) (Or.inl rfl)
  have h2 := h.2.2.2.2.2.2.2.2.2.2 (Reachable.created 1 JobType.createSite 5 0) rfl
  exact ⟨h.2.2.2.2.2.2.1, h2.1, h2.2⟩

/-- C1 counterexample: a delivery for a job that is already FAILED is not
skipped — the skip guard only rejects statuses outside {PENDING, FAILED}, so
the worker re-executes the FAILED job and commits new states (here all the
way to COMPLETED). -/
theorem failed_status_delivery_reexecutes :
    c1_failed_job.status = JobStatus.failed ∧
    (process_job (some c1_failed_job) none ExecOutcome.success 5 6).commits ≠ [] ∧
    (process_job (some c1_failed_job) none ExecOutcome.success 5 6).commits.getLastD
      c1_failed_job ≠ c1_failed_job ∧
    ((process_job (some c1_failed_job) none ExecOutcome.success 5 6).commits.getLastD
      c1_failed_job).status = JobStatus.completed := by
  decide

/-- C1 amended: a delivery for a job whose status at load time is RUNNING or
COMPLETED is a complete no-op — no commit, no tenant change, no event. -/
theorem running_or_completed_delivery_noop (job : Job) (tenant? : Option Tenant)
    (oc : ExecOutcome) (t1 t2 : Nat)
    (h : job.status = JobStatus.running ∨ job.status = JobStatus.completed) :
    process_job (some job) tenant? oc t1 t2 =
      { commits := [], tenant := tenant?, events := [] } := by
  rcases h with hs | hs <;> simp [process_job, hs]

/-- Witness for running_or_completed_delivery_noop at a concrete RUNNING job. -/
theorem running_or_completed_delivery_noop_witness :
    process_job (some w1_running_job) (some w6_tenant) ExecOutcome.success 3 4 =
      { commits := [], tenant := some w6_tenant, events := [] } :=
  running_or_completed_delivery_noop w1_running_job (some w6_tenant)
    ExecOutcome.success 3 4 (Or.inl rfl)

/-- C2: an exception raised by the unit of work is caught by the worker — the
run still produces a result (the embedded function is total) whose final
commit is FAILED with completed_at = now, error = str(e) and message
"Failed", the last event is the failed event carrying the error, and the
tenant row is exactly what the RUNNING transition left (no rollback). -/
theorem worker_exception_caught_to_failed (job : Job) (tenant? : Option Tenant)
    (d : String) (t1 t2 : Nat) (oc : ExecOutcome)
    (hacc : job.status = JobStatus.pending ∨ job.status = JobStatus.failed)
    (hoc : oc = ExecOutcome.raiseEarly d ∨ oc = ExecOutcome.raiseLate d) :
    (process_job (some job) tenant? oc t1 t2).commits ≠ [] ∧
    ((process_job (some job) tenant? oc t1 t2).commits.getLastD job).status =
      JobStatus.failed ∧
    ((process_job (some job) tenant? oc t1 t2).commits.getLastD job).completedAt =
      some t2 ∧
    ((process_job (some job) tenant? oc t1 t2).commits.getLastD job).error = some d ∧
    ((process_job (some job) tenant? oc t1 t2).commits.getLastD job).message =
      some "Failed" ∧
    ((process_job (some job) tenant? oc t1 t2).commits.getLastD job).id = job.id ∧
    (process_job (some job) tenant? oc t1 t2).events.getLast? =
      some (Event.failed job.tenantId d) ∧
    (process_job (some job) tenant? oc t1 t2).tenant = runningTenant job tenant? := by
  rcases hoc with rfl | rfl <;> rcases hacc with hs | hs <;>
    simp [process_job, hs, failedJob, processingJob, runningJob]

/-- Witness for worker_exception_caught_to_failed at a concrete PENDING job. -/
theorem worker_exception_caught_to_failed_witness :
    (process_job (some w2_pending_job) (some w6_tenant)
      (ExecOutcome.raiseEarly "boom") 3 4).commits ≠ [] ∧
    ((process_job (some w2_pending_job) (some w6_tenant)
      (ExecOutcome.raiseEarly "boom") 3 4).commits.getLastD w2_pending_job).status =
      JobStatus.failed ∧
    ((process_job (some w2_pending_job) (some w6_tenant)
      (ExecOutcome.raiseEarly "boom") 3 4).commits.getLastD w2_pending_job).error =
      some "boom" ∧
    (process_job (some w2_pending_job) (some w6_tenant)
      (ExecOutcome.raiseEarly "boom") 3 4).tenant =
      runningTenant w2_pending_job (some w6_tenant) := by
  have h := worker_exception_caught_to_failed w2_pending_job (some w6_tenant) "boom" 3 4
    (ExecOutcome.raiseEarly "boom") (Or.inl rfl) (Or.inl rfl)
  exact ⟨h.1, h.2.1, h.2.2.2.1, h.2.2.2.2.2.2.2⟩

/-- C6: for an accepted job the first commit is the RUNNING transition —
started_at = now, progress 10, message "Started", error cleared — the first
event is the tenant-scoped running status event, and the tenant is set to
PROVISIONING exactly when the tenant row exists and job_type is CREATE_SITE. -/
theorem worker_running_transition_spec (job : Job) (tenant? : Option Tenant)
    (oc : ExecOutcome) (t1 t2 : Nat)
    (hacc : job.status = JobStatus.pending ∨ job.status = JobStatus.failed) :
    (process_job (some job) tenant? oc t1 t2).commits.head? =
      some (runningJob job t1) ∧
    (process_job (some job) tenant? oc t1 t2).events.head? =
      some (Event.statusUpdate job.tenantId "running" 10 (some "Started")) ∧
    (runningJob job t1).status = JobStatus.running ∧
    (runningJob job t1).startedAt = some t1 ∧
    (runningJob job t1).progress = 10 ∧
    (runningJob job t1).message = some "Started" ∧
    (runningJob job t1).error = none ∧
    runningTenant job tenant? =
      (if job.jobType = JobType.createSite then
        Option.map (fun t => { t with status := TenantStatus.provisioning }) tenant?
      else tenant?) := by
  refine ⟨?_, ?_, rfl, rfl, rfl, rfl, rfl, ?_⟩
  · rcases hacc with hs | hs <;> cases oc <;> simp [process_job, hs]
  · rcases hacc with hs | hs <;> cases oc <;> simp [process_job, hs]
  · cases tenant? with
    | none => simp [runningTenant]
    | some t =>
      by_cases hc : job.jobType = JobType.createSite <;> simp [runningTenant, hc]

/-- Witness for worker_running_transition_spec at a concrete PENDING
CREATE_SITE job with an existing tenant. -/
theorem worker_running_transition_spec_witness :
    (process_job (some w2_pending_job) (some w6_tenant)
      ExecOutcome.success 3 4).commits.head? = some (runningJob w2_pending_job 3) ∧
    runningTenant w2_pending_job (some w6_tenant) =
      some { w6_tenant with status := TenantStatus.provisioning } := by
  have h := worker_running_transition_spec w2_pending_job (some w6_tenant)
    ExecOutcome.success 3 4 (Or.inl rfl)
  refine ⟨h.1, ?_⟩
  have h8 := h.2.2.2.2.2.2.2
  simpa [w2_pending_job, created_job] using h8

/-- C7: when the unit of work succeeds the final commit is COMPLETED with
progress 100, completed_at = now and message "Completed", the last event is
the completion event carrying the tenant's external site URL (or the
fallback URL when the tenant row is missing), and the tenant is set to
ACTIVE exactly when the tenant row exists and job_type is CREATE_SITE. -/
theorem worker_completion_spec (job : Job) (tenant? : Option Tenant) (t1 t2 : Nat)
    (hacc : job.status = JobStatus.pending ∨ job.status = JobStatus.failed) :
    (process_job (some job) tenant? ExecOutcome.success t1 t2).commits ≠ [] ∧
    ((process_job (some job) tenant? ExecOutcome.success t1 t2).commits.getLastD
      job).status = JobStatus.completed ∧
    ((process_job (some job) tenant? ExecOutcome.success t1 t2).commits.getLastD
      job).progress = 100 ∧
    ((process_job (some job) tenant? ExecOutcome.success t1 t2).commits.getLastD
      job).completedAt = some t2 ∧
    ((process_job (some job) tenant? ExecOutcome.success t1 t2).commits.getLastD
      job).message = some "Completed" ∧
    ((process_job (some job) tenant? ExecOutcome.success t1 t2).commits.getLastD
      job).id = job.id ∧
    (process_job (some job) tenant? ExecOutcome.success t1 t2).events.getLast? =
      some (Event.completed job.tenantId (completedUrl tenant?)) ∧
    (process_job (some job) tenant? ExecOutcome.success t1 t2).tenant =
      (if job.jobType = JobType.createSite then
        Option.map (fun t => { t with status := TenantStatus.active }) tenant?
      else tenant?) := by
  have hurl : completedUrl (activeTenant job (runningTenant job tenant?)) =
      completedUrl tenant? := by
    cases tenant? with
    | none => simp [runningTenant, activeTenant, completedUrl]
    | some t =>
      by_cases hc : job.jobType = JobType.createSite <;>
        simp [runningTenant, activeTenant, completedUrl, hc]
  have htenant : activeTenant job (runningTenant job tenant?) =
      (if job.jobType = JobType.createSite then
        Option.map (fun t => { t with status := TenantStatus.active }) tenant?
      else tenant?) := by
    cases tenant? with
    | none => simp [runningTenant, activeTenant]
    | some t =>
      by_cases hc : job.jobType = JobType.createSite <;>
        simp [runningTenant, activeTenant, hc]
  rw [htenant] at hurl
  rcases hacc with hs | hs <;>
    simp [process_job, hs, completedJob, processingJob, runningJob, htenant, hurl]

/-- Witness for worker_completion_spec at a concrete PENDING CREATE_SITE job
with an existing tenant. -/
theorem worker_completion_spec_witness :
    ((process_job (some w2_pending_job) (some w6_tenant)
      ExecOutcome.success 3 4).commits.getLastD w2_pending_job).status =
      JobStatus.completed ∧
    (process_job (some w2_pending_job) (some w6_tenant)
      ExecOutcome.success 3 4).events.getLast? =
      some (Event.completed w2_pending_job.tenantId (completedUrl (some w6_tenant))) ∧
    (process_job (some w2_pending_job) (some w6_tenant)
      ExecOutcome.success 3 4).tenant =
      some { w6_tenant with status := TenantStatus.active } := by
  have h := worker_completion_spec w2_pending_job (some w6_tenant) 3 4 (Or.inl rfl)
  refine ⟨h.2.1, h.2.2.2.2.2.2.1, ?_⟩
  have h8 := h.2.2.2.2.2.2.2
  simpa [w2_pending_job, created_job] using h8

/-- C5 counterexample: the worker stores str(e) verbatim, so an exception
whose detail is the empty string produces a reachable FAILED job whose error
field is present but empty — refuting the claim that status FAILED holds
exactly when error is present and non-empty. -/
theorem reachable_failed_job_with_empty_error :
    Reachable c5_empty_error_job ∧
    c5_empty_error_job.status = JobStatus.failed ∧
    c5_empty_error_job.error = some "" ∧
    ¬ (∀ j : Job, Reachable j →
        (j.status = JobStatus.failed ↔ j.error ≠ none ∧ j.error ≠ some "")) := by
  have h0 : Reachable (created_job 4 JobType.createSite 11 0) :=
    Reachable.created 4 JobType.createSite 11 0
  have hr : Reachable c5_empty_error_job :=
    Reachable.workerCommit (created_job 4 JobType.createSite 11 0) c5_empty_error_job
      none (ExecOutcome.raiseEarly "") 1 2 h0 (by decide)
  refine ⟨hr, rfl, rfl, ?_⟩
  intro hall
  exact (hall c5_empty_error_job hr).mp rfl |>.2 rfl

/-- C5 amended: on every reachable job state, status is FAILED exactly when
the error field is present (non-NULL); the error text is moreover non-empty
in every flow except a worker failure whose recorded str(e) is itself empty. -/
theorem reachable_failed_iff_error_present (j : Job) (h : Reachable j) :
    j.status = JobStatus.failed ↔ j.error ≠ none := by
  induction h with
  | created tid ty nid now => simp [created_job]
  | retried j hj hs ih => simp [retryReset]
  | cancelled j hj ih =>
    rcases hs : j.status
    · simp [cancel_job, cancelApply, hs]
    · simp [cancel_job, cancelApply, hs]
    · rw [cancel_job, if_pos (Or.inl hs)]
      exact ih
    · rw [cancel_job, if_pos (Or.inr hs)]
      exact ih
  | workerCommit j j' tenant? oc t1 t2 hj hmem ih =>
    by_cases hg : j.status ≠ JobStatus.pending ∧ j.status ≠ JobStatus.failed
    · simp [process_job, hg] at hmem
    · cases oc with
      | success =>
        simp [process_job, hg] at hmem
        rcases hmem with rfl | rfl | rfl <;>
          simp [runningJob, processingJob, completedJob]
      | raiseEarly d =>
        simp [process_job, hg] at hmem
        rcases hmem with rfl | rfl <;> simp [runningJob, failedJob]
      | raiseLate d =>
        simp [process_job, hg] at hmem
        rcases hmem with rfl | rfl | rfl <;>
          simp [runningJob, processingJob, failedJob]

/-- Witness for reachable_failed_iff_error_present at a freshly created job. -/
theorem reachable_failed_iff_error_present_witness :
    (created_job 1 JobType.createSite 2 3).status = JobStatus.failed ↔
    (created_job 1 JobType.createSite 2 3).error ≠ none :=
  reachable_failed_iff_error_present (created_job 1 JobType.createSite 2 3)
    (Reachable.created 1 JobType.createSite 2 3)

/-- C9 counterexample: the store holds one job owned by tenant 1; a caller
whose current tenant is 2 asks for it.  Each handler raises
HTTPException(404, "Job not found"), but that exception is itself caught by
the handler's closing catch-all except clause, so the caller receives a 500
with the endpoint's generic detail — not the claimed 404. -/
theorem cross_tenant_returns_500_not_404 :
    get_job c9_store 1 = Except.ok (created_job 1 JobType.createSite 1 0) ∧
    (created_job 1 JobType.createSite 1 0).tenantId ≠ 2 ∧
    get_job_endpoint c9_store 2 1 =
      ApiResp.err 500 "Failed to get provisioning job" ∧
    get_job_endpoint c9_store 2 1 ≠ ApiResp.err 404 "Job not found" ∧
    retry_job_endpoint c9_store 2 1 =
      (ApiResp.err 500 "Failed to retry provisioning job", c9_store) ∧
    cancel_job_endpoint c9_store 2 1 =
      (ApiResp.err 500 "Failed to cancel provisioning job", c9_store) := by
  refine ⟨rfl, by decide, rfl, by decide, rfl, rfl⟩

/-- C9 amended: a GetJob, RetryJob or CancelJob request for an existing job
of another tenant is rejected — with HTTP 500 and the endpoint's generic
detail, because the handler's own 404 HTTPException lands in its catch-all
except clause — and the job store is returned unmodified, so a caller can
never read or mutate another tenant's job through these endpoints. -/
theorem cross_tenant_request_rejected_unmodified (store : List Job)
    (currentTenantId jobId : Nat) (job : Job)
    (hget : get_job store jobId = Except.ok job)
    (hten : job.tenantId ≠ currentTenantId) :
    get_job_endpoint store currentTenantId jobId =
      ApiResp.err 500 "Failed to get provisioning job" ∧
    retry_job_endpoint store currentTenantId jobId =
      (ApiResp.err 500 "Failed to retry provisioning job", store) ∧
    cancel_job_endpoint store currentTenantId jobId =
      (ApiResp.err 500 "Failed to cancel provisioning job", store) := by
  refine ⟨?_, ?_, ?_⟩ <;>
    simp [get_job_endpoint, retry_job_endpoint, cancel_job_endpoint,
      get_job_handler_body, retry_job_handler_body, cancel_job_handler_body,
      hget, hten]

/-- Witness for cross_tenant_request_rejected_unmodified at the concrete
single-job store. -/
theorem cross_tenant_request_rejected_unmodified_witness :
    get_job_endpoint c9_store 2 1 =
      ApiResp.err 500 "Failed to get provisioning job" ∧
    retry_job_endpoint c9_store 2 1 =
      (ApiResp.err 500 "Failed to retry provisioning job", c9_store) ∧
    cancel_job_endpoint c9_store 2 1 =
      (ApiResp.err 500 "Failed to cancel provisioning job", c9_store) :=
  cross_tenant_request_rejected_unmodified c9_store 2 1
    (created_job 1 JobType.createSite 1 0) rfl (by decide)

end ErpMax
